import Mathlib

/-
Verification development for the MQTT client wrapper in src/MQTT.py
(class AdvancedMQTTManager and the simulate_advanced_sensor_network driver).

The Python dictionary self.message_store is modelled as an association
list preserving insertion order, with dget / dset mirroring Python dict
lookup and item assignment (assignment updates an existing key in place,
otherwise appends the key at the end, exactly as CPython dicts behave).
-/

namespace MQTTSpec

/-- Insertion-ordered string-keyed map, the model of a Python dict. -/
abbrev Dict (α : Type) := List (String × α)

/-- Python dict lookup: `d.get(k)`, returning the value of the first
(and only) binding of `k`, or none. -/
def dget {α : Type} : Dict α → String → Option α
  | [], _ => none
  | (k, v) :: rest, key => if k = key then some v else dget rest key

/-- Python dict item assignment `d[k] = v`: replaces the value of an
existing binding in place, otherwise appends the binding at the end. -/
def dset {α : Type} : Dict α → String → α → Dict α
  | [], key, v => [(key, v)]
  | (k, w) :: rest, key, v =>
      if k = key then (k, v) :: rest else (k, w) :: dset rest key v

theorem dget_dset_self {α : Type} (d : Dict α) (k : String) (v : α) :
    dget (dset d k v) k = some v := by
  induction d with
  | nil => simp [dget, dset]
  | cons hd tl ih =>
      obtain ⟨k', w⟩ := hd
      by_cases h : k' = k
      · simp [dget, dset, h]
      · simp [dget, dset, h, ih]

theorem dget_dset_ne {α : Type} (d : Dict α) (k k' : String) (v : α)
    (h : k ≠ k') : dget (dset d k v) k' = dget d k' := by
  induction d with
  | nil => simp [dget, dset, h]
  | cons hd tl ih =>
      obtain ⟨k0, w⟩ := hd
      by_cases h0 : k0 = k
      · subst h0
        simp [dget, dset, h]
      · by_cases h1 : k0 = k'
        · subst h1
          simp [dget, dset, h0]
        · simp [dget, dset, h0, h1, ih]

theorem dset_dset_self {α : Type} (d : Dict α) (k : String) (v w : α) :
    dset (dset d k v) k w = dset d k w := by
  induction d with
  | nil => simp [dset]
  | cons hd tl ih =>
      obtain ⟨k0, u⟩ := hd
      by_cases h : k0 = k
      · simp [dset, h]
      · simp [dset, h, ih]

/-- A record stored by _on_message (MQTT.py lines 101-104): the parsed
payload together with the arrival timestamp.  The payload is either a
decoded structured value (json.loads succeeded, Sum.inl) or the raw
UTF-8 text (json.loads failed, Sum.inr); the structured-value type J is
a parameter, since JSON decoding is an external codec. -/
structure MsgRec (J : Type) where
  payload : J ⊕ String
  timestamp : Nat
  deriving DecidableEq

/-- The message_store field: a dict from topic to the list of records
received on that topic, in arrival order (MQTT.py line 58). -/
abbrev Store (J : Type) := Dict (List (MsgRec J))

/-- The mutable state of an AdvancedMQTTManager instance: the
is_connected flag (line 62), the message_store (line 58), the set of
topics subscribed so far (client.subscribe calls), and the logger
output (self.logger), modelled as the list of messages logged. -/
structure MgrState (J : Type) where
  is_connected : Bool
  message_store : Store J
  subscriptions : List String
  log : List String
  deriving DecidableEq

/-- The error_messages mapping of _on_connect (MQTT.py lines 76-82)
together with the dict.get default (line 83): unknown codes map to
"Unknown error", with no code included. -/
def error_messages (rc : Nat) : String :=
  if rc = 1 then "Incorrect protocol version"
  else if rc = 2 then "Invalid client identifier"
  else if rc = 3 then "Server unavailable"
  else if rc = 4 then "Bad username or password"
  else if rc = 5 then "Not authorized"
  else "Unknown error"

/-- The _on_connect callback (MQTT.py lines 64-83).  On rc = 0 it sets
is_connected, logs, and auto-subscribes the two system topics; on any
other rc it only logs "Connection failed: ..." - it stores no failure
reason, leaves is_connected untouched, and returns nothing to anyone. -/
def on_connect {J : Type} (rc : Nat) (st : MgrState J) : MgrState J :=
  if rc = 0 then
    { st with
      is_connected := true
      log := st.log ++ ["Connected to MQTT Broker"]
      subscriptions := st.subscriptions ++ ["system/status", "system/config"] }
  else
    { st with log := st.log ++ ["Connection failed: " ++ error_messages rc] }

/-- An inbound protocol message as handed to _on_message: a concrete
topic and a raw byte payload. -/
structure InMsg where
  topic : String
  payload : List Nat

/-- The locked storage block of _on_message (MQTT.py lines 98-104),
written literally: create the topic key with an empty list when absent,
then append the record to the list under the key. -/
def storeAppend {J : Type} (s : Store J) (topic : String) (r : MsgRec J) :
    Store J :=
  let s1 := match dget s topic with
    | none => dset s topic []
    | some _ => s
  dset s1 topic ((dget s1 topic).getD [] ++ [r])

/-- The _on_message callback (MQTT.py lines 85-109), parametric in the
two external codecs: utf8 models bytes.decode, returning none when the
payload is not valid UTF-8 (UnicodeDecodeError), and jloads models
json.loads, returning none on json.JSONDecodeError.  A decode exception
is caught by the outer try/except and only logged; a JSON failure falls
back to storing the raw text.  now is the time.time() value. -/
def on_message {J : Type} (utf8 : List Nat → Option String)
    (jloads : String → Option J) (now : Nat) (m : InMsg)
    (st : MgrState J) : MgrState J :=
  match utf8 m.payload with
  | none => { st with log := st.log ++ ["Message processing error"] }
  | some payload =>
      let parsed : J ⊕ String :=
        match jloads payload with
        | some j => Sum.inl j
        | none => Sum.inr payload
      { st with
        message_store := storeAppend st.message_store m.topic ⟨parsed, now⟩
        log := st.log ++ ["Received on " ++ m.topic] }

/-- The get_messages method (MQTT.py lines 147-162): read the list for
the topic (empty when the key is absent), and when clear is true rebind
the key to a fresh empty list; returns the read list and the resulting
store.  The whole body runs under self.message_lock. -/
def get_messages {J : Type} (s : Store J) (topic : String) (clear : Bool) :
    List (MsgRec J) × Store J :=
  let messages := (dget s topic).getD []
  (messages, if clear then dset s topic [] else s)

/-- One lock-protected store operation.  Both touch points of
message_store hold self.message_lock for their whole critical section
(lines 98-104 and 158-162), so any concurrent execution is an
interleaving of these atomic operations: append models the storage
block of _on_message, drain models get_messages. -/
inductive StoreOp (J : Type) where
  | append (topic : String) (r : MsgRec J)
  | drain (topic : String) (clear : Bool)

/-- Run a sequence of atomic store operations on a store. -/
def runOps {J : Type} : List (StoreOp J) → Store J → Store J
  | [], s => s
  | .append t r :: rest, s => runOps rest (storeAppend s t r)
  | .drain t c :: rest, s => runOps rest (get_messages s t c).2

/-- Specification-side bookkeeping: the messages appended on topic t
since the last clearing drain of t, starting from a given backlog. -/
def pendingFrom {J : Type} :
    List (MsgRec J) → List (StoreOp J) → String → List (MsgRec J)
  | cur, [], _ => cur
  | cur, .append u r :: rest, t =>
      pendingFrom (if u = t then cur ++ [r] else cur) rest t
  | cur, .drain u c :: rest, t =>
      pendingFrom (if u = t then (if c then [] else cur) else cur) rest t

/-- The messages appended on topic t and not yet removed by a clearing
drain, over a whole operation sequence from the empty store. -/
def pendingList {J : Type} (ops : List (StoreOp J)) (t : String) :
    List (MsgRec J) :=
  pendingFrom [] ops t

/-- The concatenated outputs of all clearing drains on topic t during a
run of the operation sequence. -/
def drainOutputs {J : Type} : List (StoreOp J) → Store J → String → List (MsgRec J)
  | [], _, _ => []
  | .append u r :: rest, s, t => drainOutputs rest (storeAppend s u r) t
  | .drain u c :: rest, s, t =>
      (if u = t then (if c then (get_messages s u c).1 else []) else []) ++
        drainOutputs rest (get_messages s u c).2 t

/-- All messages appended on topic t by the operation sequence, in
order. -/
def appendsTo {J : Type} : List (StoreOp J) → String → List (MsgRec J)
  | [], _ => []
  | .append u r :: rest, t => (if u = t then [r] else []) ++ appendsTo rest t
  | .drain _ _ :: rest, t => appendsTo rest t

theorem dgetD_storeAppend {J : Type} (s : Store J) (u t : String) (r : MsgRec J) :
    (dget (storeAppend s u r) t).getD [] =
      if u = t then (dget s t).getD [] ++ [r] else (dget s t).getD [] := by
  by_cases h : u = t
  · subst h
    unfold storeAppend
    cases hs : dget s u with
    | none =>
        simp only [hs]
        rw [dget_dset_self, dget_dset_self]
        simp
    | some l =>
        simp only [hs]
        rw [dget_dset_self]
        simp [hs]
  · unfold storeAppend
    cases hs : dget s u with
    | none =>
        simp only [hs]
        rw [dget_dset_ne _ _ _ _ h, dget_dset_ne _ _ _ _ h]
        simp [h]
    | some l =>
        simp only [hs]
        rw [dget_dset_ne _ _ _ _ h]
        simp [h]

theorem dgetD_drain {J : Type} (s : Store J) (u t : String) (c : Bool) :
    (dget (get_messages s u c).2 t).getD [] =
      if u = t then (if c then [] else (dget s t).getD [])
      else (dget s t).getD [] := by
  by_cases h : u = t
  · subst h
    cases c with
    | false => simp [get_messages]
    | true => simp [get_messages, dget_dset_self]
  · cases c with
    | false => simp [get_messages, h]
    | true => simp [get_messages, h, dget_dset_ne _ _ _ _ h]

theorem run_pending {J : Type} (ops : List (StoreOp J)) (s : Store J) (t : String) :
    (dget (runOps ops s) t).getD [] = pendingFrom ((dget s t).getD []) ops t := by
  induction ops generalizing s with
  | nil => rfl
  | cons op rest ih =>
      cases op with
      | append u r =>
          simp only [runOps, pendingFrom]
          rw [ih, dgetD_storeAppend]
      | drain u c =>
          simp only [runOps, pendingFrom]
          rw [ih, dgetD_drain]

theorem conservation {J : Type} (ops : List (StoreOp J)) (s : Store J) (t : String) :
    drainOutputs ops s t ++ (dget (runOps ops s) t).getD [] =
      (dget s t).getD [] ++ appendsTo ops t := by
  induction ops generalizing s with
  | nil => simp [drainOutputs, runOps, appendsTo]
  | cons op rest ih =>
      cases op with
      | append u r =>
          simp only [drainOutputs, runOps, appendsTo]
          rw [ih, dgetD_storeAppend]
          by_cases h : u = t <;> simp [h]
      | drain u c =>
          simp only [drainOutputs, runOps, appendsTo]
          rw [List.append_assoc, ih, dgetD_drain]
          by_cases h : u = t
          · subst h
            cases c with
            | false => simp [get_messages]
            | true => simp [get_messages]
          · simp [h]

/-- A Python value as passed to publish (strings, ints, bools, None,
lists, dicts); floats are left out of the model. -/
inductive PyVal where
  | pstr : String → PyVal
  | pint : Int → PyVal
  | pbool : Bool → PyVal
  | pnone : PyVal
  | plist : List PyVal → PyVal
  | pdict : List (String × PyVal) → PyVal

/-- A single-quote character, as used by Python repr for strings. -/
def squote : String := "\x27"

mutual

/-- Python repr() on the modelled values (string keys and elements
assumed free of characters needing escapes). -/
def pyRepr : PyVal → String
  | .pstr s => squote ++ s ++ squote
  | .pint n => toString n
  | .pbool b => if b then "True" else "False"
  | .pnone => "None"
  | .plist xs => "[" ++ String.intercalate ", " (pyReprList xs) ++ "]"
  | .pdict kvs => "\x7b" ++ String.intercalate ", " (pyReprKVs kvs) ++ "\x7d"

def pyReprList : List PyVal → List String
  | [] => []
  | x :: xs => pyRepr x :: pyReprList xs

def pyReprKVs : List (String × PyVal) → List String
  | [] => []
  | (k, v) :: kvs => (squote ++ k ++ squote ++ ": " ++ pyRepr v) :: pyReprKVs kvs

end

/-- Python str() on the modelled values: the identity on strings,
repr-like rendering on containers, True/False/None spelled the Python
way. -/
def pyStr : PyVal → String
  | .pstr s => s
  | .pint n => toString n
  | .pbool b => if b then "True" else "False"
  | .pnone => "None"
  | .plist xs => pyRepr (.plist xs)
  | .pdict kvs => pyRepr (.pdict kvs)

mutual

/-- json.dumps with default separators on the modelled values (string
content assumed escape-free). -/
def jsonDumps : PyVal → String
  | .pstr s => "\"" ++ s ++ "\""
  | .pint n => toString n
  | .pbool b => if b then "true" else "false"
  | .pnone => "null"
  | .plist xs => "[" ++ String.intercalate ", " (jsonDumpsList xs) ++ "]"
  | .pdict kvs => "\x7b" ++ String.intercalate ", " (jsonDumpsKVs kvs) ++ "\x7d"

def jsonDumpsList : List PyVal → List String
  | [] => []
  | x :: xs => jsonDumps x :: jsonDumpsList xs

def jsonDumpsKVs : List (String × PyVal) → List String
  | [] => []
  | (k, v) :: kvs => ("\"" ++ k ++ "\": " ++ jsonDumps v) :: jsonDumpsKVs kvs

end

/-- The payload conversion inside publish (MQTT.py lines 127-133):
json.dumps when the message is a dict, then str() on the result. -/
def encodePayload (message : PyVal) : String :=
  match message with
  | .pdict kvs => pyStr (.pstr (jsonDumps (.pdict kvs)))
  | m => pyStr m

/-- paho.mqtt MQTT_ERR_SUCCESS. -/
def MQTT_ERR_SUCCESS : Nat := 0

/-- The failure type named by the specification for publish
(PublishFailed(topic, cause)); the code never constructs one. -/
inductive PublishError where
  | publishFailed (topic : String)
  deriving DecidableEq

/-- The publish method (MQTT.py lines 111-145).  transport models
client.publish: none means it raised an exception (caught by the
try/except and logged, line 145), some rc is the returned result code
(logged as success when rc = MQTT_ERR_SUCCESS, as a warning otherwise,
lines 139-142).  The Option PublishError component is everything the
caller receives about the outcome: the Python method returns None and
raises nothing, so it is none on every path. -/
def publish {J : Type} (transport : String → String → Nat → Bool → Option Nat)
    (topic : String) (message : PyVal) (qos : Nat) (retain : Bool)
    (st : MgrState J) : MgrState J × Option PublishError :=
  match transport topic (encodePayload message) qos retain with
  | none => ({ st with log := st.log ++ ["Publish error on " ++ topic] }, none)
  | some rc =>
      if rc = MQTT_ERR_SUCCESS then
        ({ st with log := st.log ++ ["Published to " ++ topic] }, none)
      else
        ({ st with log := st.log ++ ["Publication to " ++ topic ++ " failed"] },
          none)

/-- The possible connection-outcome error of the blocking Connect the
specification describes; ConnectTimeout per section 7 of the spec. -/
inductive ConnectError where
  | connectTimeout
  deriving DecidableEq

/-- State of the simulate_advanced_sensor_network driver around its
connection step. -/
structure SimState where
  is_connected : Bool
  transport_connect_called : Bool
  loop_started : Bool
  deriving DecidableEq

/-- The connection step of simulate_advanced_sensor_network (MQTT.py
lines 176-177): it calls the transport connect and loop_start and
proceeds immediately.  The Option ConnectError component is the
connection outcome delivered to the caller: the source defines no
timeout, never waits on is_connected, and defines no ConnectTimeout
value, so the caller receives none on every path. -/
def connect_and_start (st : SimState) : SimState × Option ConnectError :=
  ({ st with transport_connect_called := true, loop_started := true }, none)

theorem storeAppend_eq_dset {J : Type} (s : Store J) (t : String) (r : MsgRec J) :
    storeAppend s t r = dset s t ((dget s t).getD [] ++ [r]) := by
  unfold storeAppend
  cases hs : dget s t with
  | none => simp [hs, dget_dset_self, dset_dset_self]
  | some l => simp [hs]

/-- Claim C1, counterexample: delivering connect result code 1 to the
handler leaves the state identical except for one appended log line -
is_connected stays false, no Failed(reason) is stored anywhere, and no
value reaches any caller.  The failure is merely logged, contradicting
the claim that it is returned to a caller waiting in Connect (no such
blocking Connect exists in the source). -/
theorem connect_failure_merely_logged :
    on_connect (J := Unit) 1 ⟨false, [], [], []⟩ =
      ⟨false, [], [], ["Connection failed: Incorrect protocol version"]⟩ ∧
    (on_connect (J := Unit) 1 ⟨false, [], [], []⟩).is_connected = false :=
  ⟨rfl, rfl⟩

/-- Claim C1, amended: rc = 0 sets is_connected, logs, and
auto-subscribes the two system topics; any non-zero rc leaves
everything except the log unchanged (in particular is_connected keeps
its previous value, and nothing is returned to a caller), appending
"Connection failed: " with the mapped text - 1 through 5 as in the
source table and plain "Unknown error" (the code not included) for any
other code. -/
theorem on_connect_behavior {J : Type} (rc : Nat) (st : MgrState J) :
    (rc = 0 → on_connect rc st =
      { st with
        is_connected := true
        subscriptions := st.subscriptions ++ ["system/status", "system/config"]
        log := st.log ++ ["Connected to MQTT Broker"] }) ∧
    (rc ≠ 0 → on_connect rc st =
      { st with log := st.log ++ ["Connection failed: " ++ error_messages rc] } ∧
      (on_connect rc st).is_connected = st.is_connected) ∧
    error_messages 1 = "Incorrect protocol version" ∧
    error_messages 2 = "Invalid client identifier" ∧
    error_messages 3 = "Server unavailable" ∧
    error_messages 4 = "Bad username or password" ∧
    error_messages 5 = "Not authorized" ∧
    (rc ≠ 1 → rc ≠ 2 → rc ≠ 3 → rc ≠ 4 → rc ≠ 5 →
      error_messages rc = "Unknown error") := by
  refine ⟨?_, ?_, rfl, rfl, rfl, rfl, rfl, ?_⟩
  · intro h
    simp [on_connect, h]
  · intro h
    constructor
    · simp [on_connect, h]
    · simp [on_connect, h]
  · intro h1 h2 h3 h4 h5
    simp [error_messages, h1, h2, h3, h4, h5]

/-- Claim C1, witness for the amended theorem at rc = 7 and rc = 0. -/
theorem on_connect_behavior_witness :
    on_connect (J := Unit) 7 ⟨false, [], [], []⟩ =
      ⟨false, [], [], ["Connection failed: Unknown error"]⟩ ∧
    on_connect (J := Unit) 0 ⟨false, [], [], []⟩ =
      ⟨true, [], ["system/status", "system/config"],
        ["Connected to MQTT Broker"]⟩ := by
  constructor
  · exact ((on_connect_behavior (J := Unit) 7 ⟨false, [], [], []⟩).2.1
      (by decide)).1
  · exact (on_connect_behavior (J := Unit) 0 ⟨false, [], [], []⟩).1 rfl

/-- Claim C2 (confirmed): over every operation sequence from the empty
store, a topic holds a nonempty sequence (key present with at least one
record - an empty sequence being equivalent to absence, as the claim
allows) exactly when some message arrived on it after the last clearing
drain of that topic. -/
theorem store_key_nonempty_iff_pending {J : Type} (ops : List (StoreOp J))
    (t : String) :
    (∃ l, dget (runOps ops ([] : Store J)) t = some l ∧ l ≠ []) ↔
      pendingList ops t ≠ [] := by
  have h : (dget (runOps ops ([] : Store J)) t).getD [] = pendingList ops t := by
    have h0 := run_pending ops ([] : Store J) t
    simpa [dget, pendingList] using h0
  constructor
  · rintro ⟨l, hl, hne⟩
    rw [← h, hl]
    simpa using hne
  · intro hp
    cases hd : dget (runOps ops ([] : Store J)) t with
    | none =>
        rw [← h, hd] at hp
        simp at hp
    | some l =>
        refine ⟨l, rfl, ?_⟩
        rw [← h, hd] at hp
        simpa using hp

/-- Claim C3 (confirmed): for every store state and topic, a clearing
drain followed immediately by a non-clearing drain returns the empty
sequence from the second call. -/
theorem drain_clear_then_drain_empty {J : Type} (s : Store J) (t : String) :
    (get_messages (get_messages s t true).2 t false).1 = [] := by
  simp [get_messages, dget_dset_self]

/-- Claim C4 (confirmed): when the raw payload decodes as UTF-8 text s,
the handler appends one record under the message topic - creating the
topic sequence if absent - whose timestamp is the current time and
whose payload is the structured decode of s when jloads succeeds and
the raw text s unchanged when it fails; only the store and the log
change. -/
theorem on_message_appends_record {J : Type} (utf8 : List Nat → Option String)
    (jloads : String → Option J) (now : Nat) (m : InMsg) (st : MgrState J)
    (s : String) (h : utf8 m.payload = some s) :
    on_message utf8 jloads now m st =
      { st with
        message_store := dset st.message_store m.topic
          ((dget st.message_store m.topic).getD [] ++
            [⟨match jloads s with
              | some j => Sum.inl j
              | none => Sum.inr s, now⟩])
        log := st.log ++ ["Received on " ++ m.topic] } := by
  unfold on_message
  rw [h]
  dsimp only
  rw [storeAppend_eq_dset]

/-- Claim C4, witness: the raw text "not json" fails the structured
decode and is stored verbatim with the timestamp. -/
theorem on_message_appends_record_witness :
    ((fun _ => some "not json") : List Nat → Option String) [1] =
      some "not json" ∧
    on_message (J := Unit) (fun _ => some "not json") (fun _ => none) 5
        ⟨"t", [1]⟩ ⟨false, [], [], []⟩ =
      ⟨false, [("t", [⟨Sum.inr "not json", 5⟩])], [], ["Received on t"]⟩ := by
  refine ⟨rfl, ?_⟩
  exact on_message_appends_record (J := Unit) (fun _ => some "not json")
    (fun _ => none) 5 ⟨"t", [1]⟩ ⟨false, [], [], []⟩ "not json" rfl

/-- Claim C5, counterexample: the connection step of the driver (the
only connect call in the source) hands the caller no ConnectTimeout -
its outcome channel is none even though no success signal has arrived
and is_connected is still false afterwards.  There is no blocking wait
and no 10-second timeout anywhere in the source. -/
theorem connect_returns_no_timeout_error :
    (connect_and_start ⟨false, false, false⟩).2 = none ∧
    (connect_and_start ⟨false, false, false⟩).2 ≠
      some ConnectError.connectTimeout ∧
    (connect_and_start ⟨false, false, false⟩).1.is_connected = false :=
  ⟨rfl, by decide, rfl⟩

/-- Claim C5, amended: the connection step calls the transport connect
and starts the network loop, then returns immediately with no outcome
value; it never waits on the connection state, applies no timeout, and
leaves is_connected unchanged. -/
theorem connect_and_start_behavior (st : SimState) :
    connect_and_start st =
      ({ st with transport_connect_called := true, loop_started := true },
        none) ∧
    (connect_and_start st).1.is_connected = st.is_connected ∧
    (connect_and_start st).2 = none :=
  ⟨rfl, rfl, rfl⟩

/-- Claim C6 (confirmed): over every operation sequence from the empty
store, a drain of topic t returns exactly the messages appended on t
since the last clearing drain of t, in the order the handler appended
them - in particular the empty sequence when t never received a
message (no entry in the store). -/
theorem get_messages_insertion_order {J : Type} (ops : List (StoreOp J))
    (t : String) (c : Bool) :
    (get_messages (runOps ops ([] : Store J)) t c).1 = pendingList ops t := by
  have h0 := run_pending ops ([] : Store J) t
  simpa [get_messages, dget, pendingList] using h0

/-- Claim C7 (confirmed): with each lock-protected critical section
taken as one atomic operation, every interleaving of appends and
drains conserves the messages of each topic: the concatenated outputs
of the clearing drains followed by the still-pending messages equal,
as a list, all messages ever appended on that topic - nothing lost,
nothing duplicated, order preserved. -/
theorem store_no_loss_no_duplication {J : Type} (ops : List (StoreOp J))
    (t : String) :
    drainOutputs ops ([] : Store J) t ++ pendingList ops t = appendsTo ops t := by
  have h := conservation ops ([] : Store J) t
  rw [run_pending ops ([] : Store J) t] at h
  simpa [dget, pendingList] using h

/-- Claim C8, counterexample: a transport publish that reports failure
(result code 1) leaves the caller with none on the outcome channel;
the only trace of the failure is the appended log line. -/
theorem publish_failure_log_only :
    publish (J := Unit) (fun _ _ _ _ => some 1) "t" (.pstr "m") 1 false
        ⟨false, [], [], []⟩ =
      (⟨false, [], [], ["Publication to t failed"]⟩, none) :=
  rfl

/-- Claim C8, amended: publish surfaces nothing to its caller on any
path - the returned outcome is always none - and records exactly one
log line per call (success, transport rejection, or exception); the
rest of the state is untouched. -/
theorem publish_surfaces_nothing {J : Type}
    (transport : String → String → Nat → Bool → Option Nat) (topic : String)
    (message : PyVal) (qos : Nat) (retain : Bool) (st : MgrState J) :
    (publish transport topic message qos retain st).2 = none ∧
    (publish transport topic message qos retain st).1.message_store =
      st.message_store ∧
    (publish transport topic message qos retain st).1.is_connected =
      st.is_connected ∧
    ∃ entry, (publish transport topic message qos retain st).1.log =
      st.log ++ [entry] := by
  unfold publish
  cases htr : transport topic (encodePayload message) qos retain with
  | none => exact ⟨rfl, rfl, rfl, _, rfl⟩
  | some rc =>
      dsimp only
      by_cases h : rc = MQTT_ERR_SUCCESS
      · subst h
        exact ⟨rfl, rfl, rfl, _, rfl⟩
      · rw [if_neg h]
        exact ⟨rfl, rfl, rfl, _, rfl⟩

/-- Claim C9 (confirmed): when the payload is not valid UTF-8 the
handler catches the decode error and changes nothing but the log: the
message store is exactly what it was, the message is dropped. -/
theorem on_message_invalid_utf8_drops {J : Type}
    (utf8 : List Nat → Option String) (jloads : String → Option J)
    (now : Nat) (m : InMsg) (st : MgrState J) (h : utf8 m.payload = none) :
    on_message utf8 jloads now m st =
      { st with log := st.log ++ ["Message processing error"] } := by
  unfold on_message
  rw [h]

/-- Claim C9, witness at a concrete undecodable payload. -/
theorem on_message_invalid_utf8_drops_witness :
    ((fun _ => none) : List Nat → Option String) [255] = none ∧
    on_message (J := Unit) (fun _ => none) (fun _ => none) 5 ⟨"t", [255]⟩
        ⟨false, [("t", [⟨Sum.inr "x", 3⟩])], [], []⟩ =
      ⟨false, [("t", [⟨Sum.inr "x", 3⟩])], [], ["Message processing error"]⟩ := by
  refine ⟨rfl, ?_⟩
  exact on_message_invalid_utf8_drops (J := Unit) (fun _ => none) (fun _ => none)
    5 ⟨"t", [255]⟩ ⟨false, [("t", [⟨Sum.inr "x", 3⟩])], [], []⟩ rfl

/-- Claim C10 (confirmed): the payload handed to the transport is the
JSON serialization exactly when the message is a dict and Python str()
of the value otherwise; on non-dict values the two encoders genuinely
differ (None renders as "None", not "null"; a list renders with Python
literals, not JSON ones). -/
theorem publish_encoding_dict_json_else_str (m : PyVal) :
    encodePayload m =
      (match m with
       | .pdict kvs => jsonDumps (.pdict kvs)
       | v => pyStr v) ∧
    encodePayload .pnone = "None" ∧
    jsonDumps .pnone = "null" ∧
    encodePayload (.plist [.pint 1, .pnone]) = "[1, None]" ∧
    jsonDumps (.plist [.pint 1, .pnone]) = "[1, null]" := by
  refine ⟨?_, rfl, rfl, rfl, rfl⟩
  cases m <;> rfl

end MQTTSpec
